import Mathlib

/-!
Shallow embedding of `binderhub/build.py`.

The embedding models the pure decision logic of the module:

* `BuildStatus` mirrors `ProgressEvent.BuildStatus`.
* `get_r2d_cmd_options` / `get_cmd` mirror the repo2docker argument builders of
  `BuildExecutor` (Python truthiness of the traitlets is rendered as
  "non-empty string / non-empty list / non-zero integer").
* The watch loop of `KubernetesBuildExecutor.submit` is modelled as a function
  over the finite sequence of watch events delivered by the cluster.  Each
  delivered event carries the value the `stop_event.is_set()` check reads while
  that event is dispatched; each watch subscription additionally records the
  values read by the `while not self.stop_event.is_set()` check before the
  subscription and by the check after the stream ends.
* `KubernetesBuildExecutor.cleanup`, the creation guard of `submit`, the log
  streaming of `stream_logs` (with a JSON syntax checker standing in for
  `json.loads`), `KubernetesBuildExecutor.get_affinity`, and
  `KubernetesCleaner.cleanup` are modelled directly, with the outcome of each
  external kubernetes API call supplied as an input.
-/

/-- `ProgressEvent.BuildStatus` from build.py. -/
inductive BuildStatus where
  | PENDING
  | RUNNING
  | BUILT
  | FAILED
  | UNKNOWN
deriving DecidableEq, Repr

/-- Outcome of a kubernetes API call as seen by the Python `try/except`
blocks: either it succeeds or it raises `client.rest.ApiException` with an
HTTP status. -/
inductive ApiResult where
  | success
  | apiError (status : Nat)
deriving DecidableEq, Repr

/-- The configurable traits of `BuildExecutor` that feed the repo2docker
command line.  `registry_credentials` is carried as an association list
(the Python `Dict` traitlet); it is part of the configuration surface even
though `get_r2d_cmd_options` never consults it. -/
structure BuildCfg where
  ref : String
  image_name : String
  appendix : String
  push_secret : String
  registry_credentials : List (String × String)
  memory_limit : Nat
  repo2docker_extra_args : List String
  repo_url : String
deriving DecidableEq, Repr

/-- `BuildExecutor.get_r2d_cmd_options` from build.py. -/
def get_r2d_cmd_options (c : BuildCfg) : List String :=
  let r2d_options : List String :=
    [ "--ref=" ++ c.ref,
      "--image=" ++ c.image_name,
      "--no-clean",
      "--no-run",
      "--json-logs",
      "--user-name=jovyan",
      "--user-id=1000" ]
  let r2d_options :=
    if c.appendix ≠ "" then r2d_options ++ ["--appendix", c.appendix] else r2d_options
  let r2d_options :=
    if c.push_secret ≠ "" then r2d_options ++ ["--push"] else r2d_options
  let r2d_options :=
    if c.memory_limit ≠ 0 then
      r2d_options ++ ["--build-memory-limit", toString c.memory_limit]
    else r2d_options
  r2d_options ++ c.repo2docker_extra_args

/-- `BuildExecutor.get_cmd` from build.py: the repo URL is appended last. -/
def get_cmd (c : BuildCfg) : List String :=
  ("jupyter-repo2docker" :: get_r2d_cmd_options c) ++ [c.repo_url]

/-- `BuildExecutor.stop` from build.py: `self.stop_event.set()`.  It is the
only method of the module that writes to `stop_event`, and it maps every
prior state of the event to the set state. -/
def BuildExecutor_stop (_stop_event : Bool) : Bool := true

/-- One event delivered by `w.stream(...)` in the watch loop of
`KubernetesBuildExecutor.submit`: the value of `f["type"]` and the pod phase
`f["object"].status.phase`. -/
structure WatchEvent where
  type : String
  phase : String
deriving DecidableEq, Repr

/-- A watch event together with the value `self.stop_event.is_set()` returns
at the per-event check while this event is dispatched. -/
structure TimedEvent where
  stop : Bool
  ev : WatchEvent
deriving DecidableEq, Repr

/-- One watch subscription (one iteration of the outer `while` loop):
the value the `while not self.stop_event.is_set()` check reads before
subscribing, the events the stream delivers before its timeout, and the value
the `if self.stop_event.is_set()` check reads after the stream ends. -/
structure WatchStream where
  stopAtStart : Bool
  events : List TimedEvent
  stopAtEnd : Bool
deriving DecidableEq, Repr

/-- The status event the phase dispatch of the watch loop emits for a
non-deletion event (lines 621-649 of build.py): `Pending`/`Running`/`Failed`/
`Unknown` map to their statuses, `Succeeded` emits nothing (deferred to the
deletion event), any other phase only warns. -/
def phaseEmit (phase : String) : List BuildStatus :=
  if phase = "Pending" then [BuildStatus.PENDING]
  else if phase = "Running" then [BuildStatus.RUNNING]
  else if phase = "Succeeded" then []
  else if phase = "Failed" then [BuildStatus.FAILED]
  else if phase = "Unknown" then [BuildStatus.UNKNOWN]
  else []

/-- The status dispatch for one non-deletion event: it is guarded by
`if not self.stop_event.is_set()`. -/
def dispatchEmit (te : TimedEvent) : List BuildStatus :=
  if te.stop then [] else phaseEmit te.ev.phase

/-- After each non-deletion event the loop calls `self.cleanup()` when the
cached pod phase is `Succeeded` or `Failed` (lines 651-654); this check is not
guarded by the stop event. -/
def cleanupTrigger (te : TimedEvent) : Nat :=
  if te.ev.phase = "Succeeded" ∨ te.ev.phase = "Failed" then 1 else 0

/-- Result of processing the events of one watch subscription: the status
payloads placed on the progress queue, the number of `cleanup()` calls, and
whether the `return` in the `DELETED` branch fired. -/
structure StreamRun where
  emitted : List BuildStatus
  cleanups : Nat
  returned : Bool
deriving DecidableEq, Repr

/-- The body of the `for f in w.stream(...)` loop of
`KubernetesBuildExecutor.submit` (lines 590-654): a `DELETED` event emits the
terminal status decided by the phase the deletion event carries and returns;
any other event updates the cached pod, dispatches a status if the stop event
is unset, and triggers `cleanup()` on a `Succeeded`/`Failed` phase. -/
def processStream : List TimedEvent → StreamRun
  | [] => ⟨[], 0, false⟩
  | te :: rest =>
    if te.ev.type = "DELETED" then
      ⟨[if te.ev.phase = "Succeeded" then BuildStatus.BUILT else BuildStatus.FAILED], 0, true⟩
    else
      let r := processStream rest
      ⟨dispatchEmit te ++ r.emitted, cleanupTrigger te + r.cleanups, r.returned⟩

/-- Result of the whole watch loop: status payloads queued and `cleanup()`
calls performed. -/
structure LoopRun where
  emitted : List BuildStatus
  cleanups : Nat
deriving DecidableEq, Repr

/-- The outer `while not self.stop_event.is_set()` loop of
`KubernetesBuildExecutor.submit` (lines 587-662): re-subscribe until the
`DELETED` branch returns or the stop event is observed at a loop boundary.
A finite list of subscriptions models the finite prefix of the run. -/
def watchLoop : List WatchStream → LoopRun
  | [] => ⟨[], 0⟩
  | s :: rest =>
    if s.stopAtStart then ⟨[], 0⟩
    else
      let r := processStream s.events
      if r.returned then ⟨r.emitted, r.cleanups⟩
      else if s.stopAtEnd then ⟨r.emitted, r.cleanups⟩
      else
        let l := watchLoop rest
        ⟨r.emitted ++ l.emitted, r.cleanups + l.cleanups⟩

/-- The `try/except` around `create_namespaced_pod` in `submit`
(lines 570-584): a 409 conflict is swallowed, any other `ApiException`
re-raises. -/
def create_namespaced_pod_guard : ApiResult → Except Nat Unit
  | ApiResult.success => Except.ok ()
  | ApiResult.apiError s => if s = 409 then Except.ok () else Except.error s

/-- `KubernetesBuildExecutor.submit`: one pod-creation attempt followed, only
when the creation guard did not raise, by the watch loop.  The single
`create_outcome` argument reflects that the source performs exactly one
`create_namespaced_pod` call per invocation. -/
def KubernetesBuildExecutor_submit (create_outcome : ApiResult)
    (streams : List WatchStream) : Except Nat LoopRun :=
  match create_namespaced_pod_guard create_outcome with
  | Except.ok _ => Except.ok (watchLoop streams)
  | Except.error s => Except.error s

/-- The `V1DeleteOptions` body `cleanup` passes to `delete_namespaced_pod`. -/
structure DeleteOpts where
  grace_period_seconds : Nat
deriving DecidableEq, Repr

/-- `KubernetesBuildExecutor.cleanup` (lines 702-718): delete the pod with
`grace_period_seconds=0`; a 404 from the delete call is swallowed, any other
`ApiException` re-raises.  The returned pair records the delete options used
and the call's outcome. -/
def KubernetesBuildExecutor_cleanup (outcome : ApiResult) : DeleteOpts × Except Nat Unit :=
  (⟨0⟩,
    match outcome with
    | ApiResult.success => Except.ok ()
    | ApiResult.apiError s => if s = 404 then Except.ok () else Except.error s)

/-- The cluster side of a delete call: deleting an existing pod succeeds and
removes it; deleting an absent pod answers 404.  Returns the API outcome and
the new existence state. -/
def clusterDeleteOutcome (pod_exists : Bool) : ApiResult × Bool :=
  if pod_exists then (ApiResult.success, false) else (ApiResult.apiError 404, false)

/-- Two sequential `cleanup()` calls against the cluster, starting from an
arbitrary pod existence state; yields the outcome of each call. -/
def cleanupTwice (pod_exists : Bool) : Except Nat Unit × Except Nat Unit :=
  let o1 := clusterDeleteOutcome pod_exists
  let r1 := KubernetesBuildExecutor_cleanup o1.1
  let o2 := clusterDeleteOutcome o1.2
  let r2 := KubernetesBuildExecutor_cleanup o2.1
  (r1.2, r2.2)

/- ---------------------------------------------------------------------
JSON syntax checker standing in for Python's `json.loads` (used by
`stream_logs` only through "does this line parse").  It accepts the RFC 8259
grammar plus the `NaN`/`Infinity`/`-Infinity` extensions `json.loads` allows
by default.  Recursion is fuelled by the input length.
--------------------------------------------------------------------- -/

/-- JSON insignificant whitespace. -/
def isJsonWs (c : Char) : Bool :=
  c == ' ' || c == '\t' || c == '\n' || c == '\r'

def skipWs : List Char → List Char
  | [] => []
  | c :: cs => if isJsonWs c then skipWs cs else c :: cs

def isHexDigitCh (c : Char) : Bool :=
  c.isDigit || ('a' ≤ c && c ≤ 'f') || ('A' ≤ c && c ≤ 'F')

/-- Consume the remainder of a JSON string literal after its opening quote. -/
def jsonStringRest : List Char → Option (List Char)
  | [] => none
  | c :: cs =>
    if c == '"' then some cs
    else if c == '\\' then
      match cs with
      | [] => none
      | e :: cs2 =>
        if e == '"' || e == '\\' || e == '/' || e == 'b' || e == 'f' ||
            e == 'n' || e == 'r' || e == 't' then
          jsonStringRest cs2
        else if e == 'u' then
          match cs2 with
          | h1 :: h2 :: h3 :: h4 :: cs3 =>
            if isHexDigitCh h1 && isHexDigitCh h2 && isHexDigitCh h3 && isHexDigitCh h4 then
              jsonStringRest cs3
            else none
          | _ => none
        else none
    else if c.toNat < 32 then none
    else jsonStringRest cs

/-- Consume zero or more ASCII digits. -/
def jsonDigitsRest : List Char → List Char
  | [] => []
  | c :: cs => if c.isDigit then jsonDigitsRest cs else c :: cs

/-- Optional exponent part of a JSON number. -/
def jsonExpPart : List Char → Option (List Char)
  | [] => some []
  | c :: cs =>
    if c == 'e' || c == 'E' then
      match cs with
      | [] => none
      | d :: ds =>
        if d == '+' || d == '-' then
          match ds with
          | [] => none
          | x :: xs => if x.isDigit then some (jsonDigitsRest xs) else none
        else if d.isDigit then some (jsonDigitsRest ds)
        else none
    else some (c :: cs)

/-- Optional fraction part of a JSON number, then the optional exponent. -/
def jsonFracPart : List Char → Option (List Char)
  | [] => some []
  | c :: cs =>
    if c == '.' then
      match cs with
      | [] => none
      | d :: ds => if d.isDigit then jsonExpPart (jsonDigitsRest ds) else none
    else jsonExpPart (c :: cs)

/-- A JSON number after its optional leading minus sign. -/
def jsonNumberRest : List Char → Option (List Char)
  | [] => none
  | c :: cs =>
    if c == '0' then jsonFracPart cs
    else if c.isDigit then jsonFracPart (jsonDigitsRest cs)
    else none

/-- Match an expected literal character sequence. -/
def expectChars : List Char → List Char → Option (List Char)
  | [], rest => some rest
  | _ :: _, [] => none
  | e :: es, c :: cs => if c == e then expectChars es cs else none

mutual

/-- Consume one JSON value (with surrounding leading whitespace). -/
def jsonValueRest : Nat → List Char → Option (List Char)
  | 0, _ => none
  | fuel + 1, l =>
    match skipWs l with
    | [] => none
    | c :: cs =>
      if c == '"' then jsonStringRest cs
      else if c == '-' then
        match cs with
        | 'I' :: cs2 => expectChars ("nfinity".data) cs2
        | _ => jsonNumberRest cs
      else if c.isDigit then jsonNumberRest (c :: cs)
      else if c == '[' then jsonArrayRest fuel cs
      else if c == '\x7b' then jsonObjectRest fuel cs
      else if c == 't' then expectChars ("rue".data) cs
      else if c == 'f' then expectChars ("alse".data) cs
      else if c == 'n' then expectChars ("ull".data) cs
      else if c == 'N' then expectChars ("aN".data) cs
      else if c == 'I' then expectChars ("nfinity".data) cs
      else none

/-- After `[`: the elements of a JSON array and the closing bracket. -/
def jsonArrayRest : Nat → List Char → Option (List Char)
  | 0, _ => none
  | fuel + 1, l =>
    match skipWs l with
    | ']' :: cs => some cs
    | l2 =>
      match jsonValueRest fuel l2 with
      | none => none
      | some rest => jsonArrayTail fuel rest

/-- After one array element: a comma and another element, or the close. -/
def jsonArrayTail : Nat → List Char → Option (List Char)
  | 0, _ => none
  | fuel + 1, l =>
    match skipWs l with
    | ']' :: cs => some cs
    | ',' :: cs =>
      match jsonValueRest fuel cs with
      | none => none
      | some rest => jsonArrayTail fuel rest
    | _ => none

/-- After the opening brace: the members of a JSON object and the close. -/
def jsonObjectRest : Nat → List Char → Option (List Char)
  | 0, _ => none
  | fuel + 1, l =>
    match skipWs l with
    | '\x7d' :: cs => some cs
    | '"' :: cs =>
      match jsonStringRest cs with
      | none => none
      | some rest => jsonMemberRest fuel rest
    | _ => none

/-- After a member key: the colon, the value, then a comma and another
member or the close. -/
def jsonMemberRest : Nat → List Char → Option (List Char)
  | 0, _ => none
  | fuel + 1, l =>
    match skipWs l with
    | ':' :: cs =>
      match jsonValueRest fuel cs with
      | none => none
      | some rest =>
        match skipWs rest with
        | '\x7d' :: cs2 => some cs2
        | ',' :: cs2 =>
          match skipWs cs2 with
          | '"' :: cs3 =>
            match jsonStringRest cs3 with
            | none => none
            | some rest2 => jsonMemberRest fuel rest2
          | _ => none
        | _ => none
    | _ => none

end

/-- Whether `json.loads(line)` succeeds: one JSON value with only whitespace
around it. -/
def json_loads_ok (s : String) : Bool :=
  match jsonValueRest (s.length + 1) s.data with
  | some rest => (skipWs rest).isEmpty
  | none => false

/-- What `stream_logs` forwards for one log line: either the line as-is, or
the line wrapped by `json.dumps` as an object with a `phase` and a `message`
field. -/
inductive ForwardedLog where
  | asIs (line : String)
  | wrapped (phase message : String)
deriving DecidableEq, Repr

/-- A log line together with the value `self.stop_event.is_set()` returns at
the check performed before that line is handled. -/
structure TimedLine where
  stop : Bool
  line : String
deriving DecidableEq, Repr

/-- The per-line body of `KubernetesBuildExecutor.stream_logs`
(lines 680-698): forward the line as-is when it parses as JSON, else forward
it wrapped as an object with phase `unknown` and the raw line as message. -/
def handleLogLine (line : String) : ForwardedLog :=
  if json_loads_ok line then ForwardedLog.asIs line
  else ForwardedLog.wrapped "unknown" line

/-- `KubernetesBuildExecutor.stream_logs` over a finite log stream: each
iteration first checks the stop event (returning when it is set) and then
forwards the line as a `LOG_MESSAGE` event. -/
def stream_logs : List TimedLine → List ForwardedLog
  | [] => []
  | tl :: rest =>
    if tl.stop then [] else handleLogLine tl.line :: stream_logs rest

/- ---------------------------------------------------------------------
Affinity (KubernetesBuildExecutor.get_affinity)
--------------------------------------------------------------------- -/

/-- Insert into a list sorted by descending score. -/
def insertDesc (score : String → Nat) (x : String) : List String → List String
  | [] => [x]
  | y :: ys => if score y ≤ score x then x :: y :: ys else y :: insertDesc score x ys

/-- Sort by descending score. -/
def sortDesc (score : String → Nat) : List String → List String
  | [] => []
  | x :: xs => insertDesc score x (sortDesc score xs)

/-- Modelled from the spec: `rendezvous_rank` lives in `binderhub/utils.py`,
which is not among the sources.  Per the spec it ranks the candidate nodes by
a rendezvous-hash score keyed on `(node, key)` — a uniformly distributed hash
combining node identity and key — sorted descending.  The hash itself is
taken as a parameter. -/
def rendezvous_rank (h : String → String → Nat) (nodes : List String)
    (key : String) : List String :=
  sortDesc (fun n => h n key) nodes

/-- The pod list `get_affinity` reads: the node names of the pods carried in
the `items` field of the parsed response. -/
structure PodListResponse where
  items : List String
deriving DecidableEq, Repr

/-- Python truthiness of `image_builder_pods = json.loads(resp.read())`: the
parsed kubernetes list response is a JSON object carrying at least the
`items` key, and a non-empty dict is truthy, so it is truthy even when
`items` is the empty list. -/
def PodListResponse.truthy (_ : PodListResponse) : Bool := true

/-- The affinity term `get_affinity` builds: a weight-100 preferred
node-affinity pin to one hostname, or a weight-100 preferred pod
anti-affinity against a component label. -/
inductive Affinity where
  | node_affinity (weight : Nat) (hostname : String)
  | pod_anti_affinity (weight : Nat) (component : String)
deriving DecidableEq, Repr

/-- `BuildExecutor._component_label`. -/
def component_label : String := "binderhub-build"

/-- `KubernetesBuildExecutor.get_affinity` (lines 370-434).  `none` models
the `IndexError` raised by `ranked_nodes[0]` when the ranking is empty. -/
def get_affinity (h : String → String → Nat) (sticky_builds : Bool)
    (resp : PodListResponse) (repo_url : String) : Option Affinity :=
  if sticky_builds && resp.truthy then
    match rendezvous_rank h resp.items repo_url with
    | [] => none
    | best :: _ => some (Affinity.node_affinity 100 best)
  else
    some (Affinity.pod_anti_affinity 100 component_label)

/- ---------------------------------------------------------------------
Garbage collector (KubernetesCleaner.cleanup)
--------------------------------------------------------------------- -/

/-- The `status` fields of a listed build pod that the cleaner reads:
`phase` and `start_time` (absent when the pod never started), with times as
integers on a common clock. -/
structure PodStatus where
  phase : String
  start_time : Option Int
deriving DecidableEq, Repr

/-- The deletion condition of one iteration of `KubernetesCleaner.cleanup`
(lines 760-785): delete on a `Failed`/`Succeeded`/`Evicted` phase, else on
`self.max_age and started and started < start_cutoff` with
`start_cutoff = now - max_age` — Python truthiness of the integer `max_age`
is `max_age ≠ 0`. -/
def KubernetesCleaner_shouldDelete (max_age now : Int) (b : PodStatus) : Bool :=
  if b.phase = "Failed" ∨ b.phase = "Succeeded" ∨ b.phase = "Evicted" then true
  else
    match b.start_time with
    | some started => decide (max_age ≠ 0) && decide (started < now - max_age)
    | none => false

/-- A listed build pod together with the outcome its delete call would have
if attempted. -/
structure GCPod where
  build : PodStatus
  deleteOutcome : ApiResult
deriving DecidableEq, Repr

/-- The sweep of `KubernetesCleaner.cleanup` (lines 749-803): for each pod
matching the deletion condition the counter is incremented and then the
delete is attempted; a 404 is swallowed, any other `ApiException` propagates
and aborts the sweep.  The result is the reported deleted count. -/
def KubernetesCleaner_cleanup (max_age now : Int) : List GCPod → Except Nat Nat
  | [] => Except.ok 0
  | b :: rest =>
    if KubernetesCleaner_shouldDelete max_age now b.build then
      match b.deleteOutcome with
      | ApiResult.success => (KubernetesCleaner_cleanup max_age now rest).map (· + 1)
      | ApiResult.apiError s =>
        if s = 404 then (KubernetesCleaner_cleanup max_age now rest).map (· + 1)
        else Except.error s
    else KubernetesCleaner_cleanup max_age now rest

/- ---------------------------------------------------------------------
Counting helpers and concrete inputs used by the claims
--------------------------------------------------------------------- -/

/-- Number of terminal (`BUILT` or `FAILED`) payloads in an emission list. -/
def countTerminal (l : List BuildStatus) : Nat :=
  l.countP (fun s => decide (s = BuildStatus.BUILT ∨ s = BuildStatus.FAILED))

/-- Number of `BUILT` payloads in an emission list. -/
def countBuilt (l : List BuildStatus) : Nat :=
  l.countP (fun s => decide (s = BuildStatus.BUILT))

/-- The emissions of a deletion-free event prefix, accumulated exactly as
`processStream` accumulates them. -/
def streamEmits : List TimedEvent → List BuildStatus
  | [] => []
  | te :: rest => dispatchEmit te ++ streamEmits rest

/-- The `cleanup()` calls of a deletion-free event prefix. -/
def streamCleanups : List TimedEvent → Nat
  | [] => 0
  | te :: rest => cleanupTrigger te + streamCleanups rest

/-- A phase-Failed modification event followed by the deletion event the
subsequent `cleanup()` produces, with the stop event never set. -/
def failedThenDeleted : List TimedEvent :=
  [⟨false, ⟨"MODIFIED", "Failed"⟩⟩, ⟨false, ⟨"DELETED", "Failed"⟩⟩]

/-- The same two watch events delivered after the stop event was set: the
stop flag reads true at both per-event checks. -/
def cancelledFailedThenDeleted : List TimedEvent :=
  [⟨true, ⟨"MODIFIED", "Failed"⟩⟩, ⟨true, ⟨"DELETED", "Failed"⟩⟩]

/-- A build configuration with dynamic registry credentials but no static
push secret and no memory limit. -/
def dynamicCredsCfg : BuildCfg :=
  { ref := "main"
  , image_name := "example.org/img:tag"
  , appendix := ""
  , push_secret := ""
  , registry_credentials := [("registry", "docker.io"), ("username", "u"), ("password", "p")]
  , memory_limit := 0
  , repo2docker_extra_args := []
  , repo_url := "https://example.com/repo" }

/-- A constant hash, enough to instantiate the abstract rendezvous hash at
concrete inputs. -/
def hashZero (_node _key : String) : Nat := 0

/- ---------------------------------------------------------------------
Helper lemmas
--------------------------------------------------------------------- -/

theorem countBuilt_append (a b : List BuildStatus) :
    countBuilt (a ++ b) = countBuilt a + countBuilt b := by
  simp [countBuilt, List.countP_append]

theorem countBuilt_dispatchEmit (te : TimedEvent) : countBuilt (dispatchEmit te) = 0 := by
  unfold dispatchEmit phaseEmit
  split_ifs <;> rfl

/-- The phase dispatch never produces `BUILT`, and a stream whose deletion
branch never fired produces no `BUILT` at all. -/
theorem processStream_countBuilt : ∀ evs : List TimedEvent,
    countBuilt (processStream evs).emitted ≤ 1 ∧
    ((processStream evs).returned = false → countBuilt (processStream evs).emitted = 0) := by
  intro evs
  induction evs with
  | nil => exact ⟨Nat.zero_le 1, fun _ => rfl⟩
  | cons te rest ih =>
    by_cases h : te.ev.type = "DELETED"
    · constructor
      · simp only [processStream, if_pos h]
        split <;> simp [countBuilt]
      · intro hr
        simp only [processStream, if_pos h] at hr
        exact Bool.noConfusion hr
    · constructor
      · simp only [processStream, if_neg h, countBuilt_append, countBuilt_dispatchEmit,
          Nat.zero_add]
        exact ih.1
      · intro hr
        simp only [processStream, if_neg h] at hr ⊢
        simp [countBuilt_append, countBuilt_dispatchEmit, ih.2 hr]

theorem watchLoop_countBuilt : ∀ streams : List WatchStream,
    countBuilt (watchLoop streams).emitted ≤ 1 := by
  intro streams
  induction streams with
  | nil => exact Nat.zero_le 1
  | cons s rest ih =>
    have hp := processStream_countBuilt s.events
    by_cases h1 : s.stopAtStart
    · simp [watchLoop, h1, countBuilt]
    · by_cases h2 : (processStream s.events).returned
      · simpa [watchLoop, h1, h2] using hp.1
      · by_cases h3 : s.stopAtEnd
        · simpa [watchLoop, h1, h2, h3] using hp.1
        · have h0 := hp.2 (by simpa using h2)
          simp [watchLoop, h1, h2, h3, countBuilt_append, h0]
          exact ih

/-- Processing a deletion-free prefix accumulates its dispatches and cleanup
calls and then continues with the remaining events. -/
theorem processStream_append (pre l : List TimedEvent) :
    (∀ x ∈ pre, x.ev.type ≠ "DELETED") →
    processStream (pre ++ l) =
      ⟨streamEmits pre ++ (processStream l).emitted,
       streamCleanups pre + (processStream l).cleanups,
       (processStream l).returned⟩ := by
  induction pre with
  | nil => intro _; simp [streamEmits, streamCleanups]
  | cons x xs ih =>
    intro hpre
    have hx : x.ev.type ≠ "DELETED" := hpre x (List.mem_cons_self x xs)
    have ihx := ih (fun y hy => hpre y (List.mem_cons_of_mem x hy))
    simp only [List.cons_append, processStream, if_neg hx, List.append_eq, ihx, streamEmits,
      streamCleanups, List.append_assoc, Nat.add_assoc]

/- ---------------------------------------------------------------------
C1
--------------------------------------------------------------------- -/

/-- C1, counterexample: on the watch-event sequence of a phase-Failed event
followed by a deletion event for the same pod (stop event never set), the
watch loop of `submit()` places two terminal `FAILED` payloads on the
progress queue, so "at most one terminal StatusChange event per invocation"
fails as stated. -/
theorem submit_double_failed_terminal :
    (watchLoop [⟨false, failedThenDeleted, false⟩]).emitted =
      [BuildStatus.FAILED, BuildStatus.FAILED] ∧
    countTerminal (watchLoop [⟨false, failedThenDeleted, false⟩]).emitted = 2 := by
  constructor <;> rfl

/-- C1 (amended): over a whole `submit()` invocation, at most one terminal
`BUILT` payload is placed on the progress queue, for every sequence of watch
events; a terminal `FAILED` payload, however, may be placed more than once —
each phase-Failed watch event emits `FAILED` and the subsequent deletion
event emits a further terminal, so a phase-Failed event followed by a
deletion event yields two `FAILED` events. -/
theorem submit_terminal_built_at_most_once (streams : List WatchStream) :
    countBuilt (watchLoop streams).emitted ≤ 1 :=
  watchLoop_countBuilt streams

/- ---------------------------------------------------------------------
C2
--------------------------------------------------------------------- -/

/-- C2: whenever the watch loop receives a deletion event for the watched
pod, it emits terminal `BUILT` if the deletion event reports the pod's last
phase as `Succeeded` and terminal `FAILED` for any other phase, and then
returns: the events after the deletion event are never processed, and the
watch loop ends with exactly the emissions and cleanup calls accumulated
before the deletion plus that single terminal event. -/
theorem deleted_event_emits_terminal_and_returns
    (pre : List TimedEvent) (te : TimedEvent) (rest : List TimedEvent)
    (more : List WatchStream) (e : Bool)
    (hpre : ∀ x ∈ pre, x.ev.type ≠ "DELETED") (ht : te.ev.type = "DELETED") :
    processStream (pre ++ te :: rest) =
      ⟨streamEmits pre ++
         [if te.ev.phase = "Succeeded" then BuildStatus.BUILT else BuildStatus.FAILED],
       streamCleanups pre, true⟩ ∧
    watchLoop ({ stopAtStart := false, events := pre ++ te :: rest, stopAtEnd := e } :: more) =
      ⟨streamEmits pre ++
         [if te.ev.phase = "Succeeded" then BuildStatus.BUILT else BuildStatus.FAILED],
       streamCleanups pre⟩ := by
  have hdel : processStream (te :: rest) =
      ⟨[if te.ev.phase = "Succeeded" then BuildStatus.BUILT else BuildStatus.FAILED],
        0, true⟩ := by
    simp only [processStream, if_pos ht]
  have h1 := processStream_append pre (te :: rest) hpre
  rw [hdel] at h1
  refine ⟨by simpa using h1, ?_⟩
  simp only [watchLoop, Bool.false_eq_true, if_false, h1]
  simp

/-- C2, witness: an ADDED Running event followed by a DELETED event carrying
phase Succeeded emits `RUNNING` then terminal `BUILT` and returns. -/
theorem deleted_event_emits_terminal_and_returns_witness :
    processStream [⟨false, ⟨"ADDED", "Running"⟩⟩, ⟨false, ⟨"DELETED", "Succeeded"⟩⟩] =
      ⟨[BuildStatus.RUNNING, BuildStatus.BUILT], 0, true⟩ :=
  (deleted_event_emits_terminal_and_returns
    [⟨false, ⟨"ADDED", "Running"⟩⟩] ⟨false, ⟨"DELETED", "Succeeded"⟩⟩ [] [] false
    (by decide) rfl).1

/- ---------------------------------------------------------------------
C3
--------------------------------------------------------------------- -/

/-- C3: `submit()` makes a single pod-creation attempt (the model consumes
exactly one creation outcome); a 409 name-conflict is swallowed and the
executor proceeds to watch the existing pod, a successful creation likewise
proceeds to the watch loop, and any other creation error propagates out of
`submit()`, whose result is then the error alone — the watch loop never
contributes to it. -/
theorem submit_creates_once_conflict_tolerated (s : Nat) (streams : List WatchStream)
    (hs : s ≠ 409) :
    KubernetesBuildExecutor_submit ApiResult.success streams = Except.ok (watchLoop streams) ∧
    KubernetesBuildExecutor_submit (ApiResult.apiError 409) streams =
      Except.ok (watchLoop streams) ∧
    KubernetesBuildExecutor_submit (ApiResult.apiError s) streams = Except.error s := by
  refine ⟨rfl, rfl, ?_⟩
  simp [KubernetesBuildExecutor_submit, create_namespaced_pod_guard, hs]

/-- C3, witness: creation failing with HTTP 500 aborts submission before the
watch loop starts. -/
theorem submit_creates_once_conflict_tolerated_witness :
    KubernetesBuildExecutor_submit (ApiResult.apiError 500) [] = Except.error 500 :=
  (submit_creates_once_conflict_tolerated 500 [] (by decide)).2.2

/- ---------------------------------------------------------------------
C4
--------------------------------------------------------------------- -/

/-- C4: `cleanup()` deletes the pod with grace period zero; a 404 not-found
from the delete call is swallowed and `cleanup()` returns normally; any
other delete error propagates; and two sequential `cleanup()` calls — the
second seeing the pod already gone and answered with 404 — never raise on
the second call, from any initial pod existence state. -/
theorem cleanup_grace_zero_and_404_swallowed (outcome : ApiResult) (s : Nat)
    (pod_exists : Bool) (hs : s ≠ 404) :
    (KubernetesBuildExecutor_cleanup outcome).1.grace_period_seconds = 0 ∧
    (KubernetesBuildExecutor_cleanup (ApiResult.apiError 404)).2 = Except.ok () ∧
    (KubernetesBuildExecutor_cleanup (ApiResult.apiError s)).2 = Except.error s ∧
    (cleanupTwice pod_exists).2 = Except.ok () := by
  refine ⟨rfl, rfl, ?_, ?_⟩
  · simp [KubernetesBuildExecutor_cleanup, hs]
  · cases pod_exists <;> rfl

/-- C4, witness: a successful delete uses grace period zero, and a second
sequential `cleanup()` starting from an existing pod does not raise. -/
theorem cleanup_grace_zero_and_404_swallowed_witness :
    (KubernetesBuildExecutor_cleanup ApiResult.success).1.grace_period_seconds = 0 ∧
    (KubernetesBuildExecutor_cleanup (ApiResult.apiError 500)).2 = Except.error 500 ∧
    (cleanupTwice true).2 = Except.ok () :=
  have h := cleanup_grace_zero_and_404_swallowed ApiResult.success 500 true (by decide)
  ⟨h.1, h.2.2.1, h.2.2.2⟩

/- ---------------------------------------------------------------------
C5
--------------------------------------------------------------------- -/

/-- C5, counterexample: with the stop event already set (both per-event
checks read true, the trace is monotone), a phase-Failed event followed by a
deletion event still makes the watch loop emit a terminal `FAILED` payload
and call `cleanup()` (deleting the pod) before returning — cancellation
observed at an event dispatch does not stop the loop from emitting a
terminal event or deleting the pod. -/
theorem cancelled_watch_still_emits_and_deletes :
    (cancelledFailedThenDeleted.map TimedEvent.stop = [true, true]) ∧
    watchLoop [⟨false, cancelledFailedThenDeleted, true⟩] = ⟨[BuildStatus.FAILED], 1⟩ ∧
    countTerminal (watchLoop [⟨false, cancelledFailedThenDeleted, true⟩]).emitted = 1 := by
  refine ⟨rfl, rfl, rfl⟩

/-- C5 (amended): cancellation is monotonic — `stop()` maps every state of
the stop event to set, and a set stop event is never reset — and `submit()`
checks it before each watch re-subscription and before each non-deletion
event's status dispatch.  When the check before a re-subscription reads set,
the loop returns at once with no status event and no `cleanup()` call, and a
non-deletion event dispatched with the stop event set emits no status event;
a deletion event, however, still emits its terminal status and returns, and
a `Succeeded`/`Failed` phase still triggers `cleanup()`, even after
cancellation was observed. -/
theorem cancellation_checked_at_boundaries (s : Bool) (evs : List TimedEvent)
    (e : Bool) (rest : List WatchStream) (te : TimedEvent) (hs : te.stop = true) :
    BuildExecutor_stop s = true ∧
    (s = true → BuildExecutor_stop s = true) ∧
    watchLoop ({ stopAtStart := true, events := evs, stopAtEnd := e } :: rest) = ⟨[], 0⟩ ∧
    dispatchEmit te = [] := by
  refine ⟨rfl, fun _ => rfl, rfl, ?_⟩
  simp [dispatchEmit, hs]

/-- C5, witness: the stop event set from an unset state stays set, a stream
whose pre-subscription check reads set yields no events and no deletion, and
a Running event dispatched with the stop event set emits nothing. -/
theorem cancellation_checked_at_boundaries_witness :
    BuildExecutor_stop false = true ∧
    watchLoop [⟨true, failedThenDeleted, false⟩] = ⟨[], 0⟩ ∧
    dispatchEmit ⟨true, ⟨"MODIFIED", "Running"⟩⟩ = [] :=
  have h := cancellation_checked_at_boundaries false failedThenDeleted false []
    ⟨true, ⟨"MODIFIED", "Running"⟩⟩ rfl
  ⟨h.1, h.2.2.1, h.2.2.2⟩

/- ---------------------------------------------------------------------
C6
--------------------------------------------------------------------- -/

/-- When the stop event is never observed set, the log stream forwards
exactly one event per line, in order. -/
theorem stream_logs_map : ∀ lines : List TimedLine,
    (∀ tl ∈ lines, tl.stop = false) →
    stream_logs lines = lines.map fun tl => handleLogLine tl.line := by
  intro lines
  induction lines with
  | nil => intro _; rfl
  | cons tl rest ih =>
    intro h
    have h1 : tl.stop = false := h tl (List.mem_cons_self tl rest)
    have h2 := ih fun y hy => h y (List.mem_cons_of_mem tl hy)
    simp [stream_logs, h1, h2]

/-- C6: while `stream_logs()` is not cancelled, every line read from the log
stream is forwarded as a `LOG_MESSAGE` event — one event per line, a line
that parses as JSON forwarded as-is and a line that fails to parse forwarded
wrapped as an object with phase `unknown` and the raw line as message — and
in particular the line `not json` does not parse and is forwarded wrapped. -/
theorem stream_logs_forwards_every_line (lines : List TimedLine)
    (h : ∀ tl ∈ lines, tl.stop = false) :
    stream_logs lines = (lines.map fun tl => handleLogLine tl.line) ∧
    (stream_logs lines).length = lines.length ∧
    handleLogLine "not json" = ForwardedLog.wrapped "unknown" "not json" := by
  have hm := stream_logs_map lines h
  exact ⟨hm, by rw [hm, List.length_map], rfl⟩

/-- C6, witness: the non-JSON line `not json` is forwarded wrapped, the JSON
line `123` is forwarded as-is, and no line is dropped. -/
theorem stream_logs_forwards_every_line_witness :
    stream_logs [⟨false, "not json"⟩, ⟨false, "123"⟩] =
      [ForwardedLog.wrapped "unknown" "not json", ForwardedLog.asIs "123"] :=
  (stream_logs_forwards_every_line [⟨false, "not json"⟩, ⟨false, "123"⟩] (by decide)).1

/- ---------------------------------------------------------------------
C7
--------------------------------------------------------------------- -/

/-- C7, counterexample: with `max_age = -1` configured (an integer the
Integer traitlet admits), a `Running` pod started at time 999 swept at time
1000 IS deleted by the cleaner — `self.max_age` is truthy because it is
non-zero, and `999 < now - max_age = 1001` — although the claim's condition
(phase terminal, or a positive max_age with the start older than
`now - max_age`) is false at this input. -/
theorem cleaner_deletes_young_pod_with_negative_max_age :
    KubernetesCleaner_shouldDelete (-1) 1000 ⟨"Running", some 999⟩ = true ∧
    ¬ ((("Running" : String) = "Failed" ∨ ("Running" : String) = "Succeeded" ∨
          ("Running" : String) = "Evicted") ∨
        ((0 : Int) < -1 ∧ (999 : Int) < 1000 - (-1))) := by
  constructor
  · rfl
  · decide

/-- C7 (amended): a pod listed in a `KubernetesCleaner.cleanup()` sweep is
deleted if and only if its phase is in {Failed, Succeeded, Evicted}
(regardless of age), or a NON-ZERO max_age is configured, a start time is
present, and the start time is older than `now - max_age`; in particular a
Running pod younger than a positive max_age is not deleted. -/
theorem cleaner_delete_iff_condition (max_age now : Int) (b : PodStatus) :
    KubernetesCleaner_shouldDelete max_age now b = true ↔
      ((b.phase = "Failed" ∨ b.phase = "Succeeded" ∨ b.phase = "Evicted") ∨
        (max_age ≠ 0 ∧ ∃ s, b.start_time = some s ∧ s < now - max_age)) := by
  by_cases hph : b.phase = "Failed" ∨ b.phase = "Succeeded" ∨ b.phase = "Evicted"
  · simp [KubernetesCleaner_shouldDelete, hph]
  · cases hst : b.start_time with
    | none => simp [KubernetesCleaner_shouldDelete, hph, hst]
    | some s => simp [KubernetesCleaner_shouldDelete, hph, hst]

/- ---------------------------------------------------------------------
C8
--------------------------------------------------------------------- -/

/-- C8, code bug: for a configuration with dynamic registry credentials
supplied but no static push secret, `get_r2d_cmd_options` omits `--push`
(its guard tests only `self.push_secret`), even though push credentials are
configured and the `registry_credentials` trait documents that they are used
instead of `push_secret`; the flag appears once a static secret is set.  The
memory-limit flag is correctly absent here (no memory limit configured). -/
theorem push_flag_ignores_registry_credentials :
    dynamicCredsCfg.registry_credentials ≠ [] ∧
    dynamicCredsCfg.push_secret = "" ∧
    "--push" ∉ get_r2d_cmd_options dynamicCredsCfg ∧
    "--push" ∉ get_cmd dynamicCredsCfg ∧
    "--build-memory-limit" ∉ get_r2d_cmd_options dynamicCredsCfg ∧
    "--push" ∈ get_r2d_cmd_options
      { dynamicCredsCfg with push_secret := "binder-build-docker-config" } := by
  refine ⟨by decide, rfl, by decide, by decide, by decide, by decide⟩

/- ---------------------------------------------------------------------
C9
--------------------------------------------------------------------- -/

theorem insertDesc_ne_nil (score : String → Nat) (x : String) :
    ∀ l : List String, insertDesc score x l ≠ [] := by
  intro l
  cases l with
  | nil => simp [insertDesc]
  | cons y ys =>
    simp only [insertDesc]
    split <;> simp

/-- A ranking of a non-empty candidate set is non-empty. -/
theorem rendezvous_rank_ne_nil (h : String → String → Nat) (key : String) :
    ∀ nodes : List String, nodes ≠ [] → rendezvous_rank h nodes key ≠ [] := by
  intro nodes hne
  cases nodes with
  | nil => exact absurd rfl hne
  | cons x xs => exact insertDesc_ne_nil _ x _

/-- C9 (amended): `get_affinity()` returns the weight-100 preferred
node-affinity term pinning to the single top node of the rendezvous ranking
of the nodes hosting active image-builder pods, keyed by the repo URL, when
sticky builds are enabled and at least one such pod exists; when sticky
builds are disabled it returns the weight-100 preferred pod-anti-affinity
term against the build component label; but when sticky builds are enabled
and NO active pod exists, the parsed list response object is still truthy,
so the method indexes the empty ranking and raises an IndexError instead of
returning the anti-affinity term. -/
theorem get_affinity_cases (h : String → String → Nat) (items : List String)
    (repo : String) (hne : items ≠ []) :
    (∃ best rest, rendezvous_rank h items repo = best :: rest ∧
        get_affinity h true ⟨items⟩ repo = some (Affinity.node_affinity 100 best)) ∧
    get_affinity h false ⟨items⟩ repo =
      some (Affinity.pod_anti_affinity 100 component_label) ∧
    get_affinity h true ⟨[]⟩ repo = none := by
  refine ⟨?_, rfl, rfl⟩
  have hr := rendezvous_rank_ne_nil h repo items hne
  obtain ⟨best, rest, hbr⟩ := List.exists_cons_of_ne_nil hr
  refine ⟨best, rest, hbr, ?_⟩
  simp [get_affinity, PodListResponse.truthy, hbr]

/-- C9, witness: with two candidate nodes under a constant hash score the
top-ranked node is pinned; with sticky builds disabled the anti-affinity
term is returned. -/
theorem get_affinity_cases_witness :
    get_affinity hashZero true ⟨["n1", "n2"]⟩ "r" =
      some (Affinity.node_affinity 100 "n1") ∧
    get_affinity hashZero false ⟨["n1", "n2"]⟩ "r" =
      some (Affinity.pod_anti_affinity 100 component_label) :=
  have h := get_affinity_cases hashZero ["n1", "n2"] "r" (by decide)
  ⟨by rfl, h.2.1⟩

/-- C9, counterexample: with sticky builds enabled and zero active
image-builder pods the claim requires the pod-anti-affinity term, but
`get_affinity()` indexes the empty rendezvous ranking — the parsed list
response is a non-empty JSON object, hence truthy — and raises an
IndexError (modelled as `none`) instead of returning any affinity term. -/
theorem get_affinity_sticky_empty_raises :
    get_affinity hashZero true ⟨[]⟩ "https://example.com/repo" = none := rfl

/- ---------------------------------------------------------------------
C10
--------------------------------------------------------------------- -/

/-- When a cleaner sweep completes and reports a count, that count equals
the number of listed pods matching the deletion condition. -/
theorem cleaner_count_aux (max_age now : Int) : ∀ (pods : List GCPod) (n : Nat),
    KubernetesCleaner_cleanup max_age now pods = Except.ok n →
    n = pods.countP (fun b => KubernetesCleaner_shouldDelete max_age now b.build) := by
  intro pods
  induction pods with
  | nil =>
    intro n hn
    simp only [KubernetesCleaner_cleanup, Except.ok.injEq] at hn
    simp [← hn]
  | cons b rest ih =>
    intro n hn
    by_cases hd : KubernetesCleaner_shouldDelete max_age now b.build = true
    · have hstep : KubernetesCleaner_cleanup max_age now (b :: rest) =
          (KubernetesCleaner_cleanup max_age now rest).map (· + 1) ∨
          ∃ s, s ≠ 404 ∧ b.deleteOutcome = ApiResult.apiError s ∧
            KubernetesCleaner_cleanup max_age now (b :: rest) = Except.error s := by
        cases hob : b.deleteOutcome with
        | success => exact Or.inl (by simp [KubernetesCleaner_cleanup, hd, hob])
        | apiError s =>
          by_cases h4 : s = 404
          · exact Or.inl (by simp [KubernetesCleaner_cleanup, hd, hob, h4])
          · exact Or.inr ⟨s, h4, rfl, by simp [KubernetesCleaner_cleanup, hd, hob, h4]⟩
      rcases hstep with hmap | ⟨s, _, _, herr⟩
      · rw [hmap] at hn
        cases hr : KubernetesCleaner_cleanup max_age now rest with
        | ok m =>
          rw [hr] at hn
          simp only [Except.map, Except.ok.injEq] at hn
          have hm := ih m hr
          simp [List.countP_cons, hd, ← hn, hm]
        | error e =>
          rw [hr] at hn
          simp [Except.map] at hn
      · rw [herr] at hn
        exact absurd hn (by simp)
    · have hrest : KubernetesCleaner_cleanup max_age now (b :: rest) =
          KubernetesCleaner_cleanup max_age now rest := by
        simp [KubernetesCleaner_cleanup, hd]
      rw [hrest] at hn
      have hm := ih n hn
      simp [List.countP_cons, hd, hm]

/-- C10: whenever a `KubernetesCleaner.cleanup()` sweep completes, the
reported deleted count equals the number of listed pods that matched a
deletion condition, including pods whose delete call answered 404 not-found:
the counter is incremented before each delete attempt, so a swallowed 404
still counts as a deletion. -/
theorem cleaner_count_includes_not_found (max_age now : Int) (pods : List GCPod)
    (n : Nat) (h : KubernetesCleaner_cleanup max_age now pods = Except.ok n) :
    n = pods.countP (fun b => KubernetesCleaner_shouldDelete max_age now b.build) :=
  cleaner_count_aux max_age now pods n h

/-- C10, witness: a sweep over a terminal pod whose delete answers 404 and a
young Running pod reports one deletion — the 404 pod is counted. -/
theorem cleaner_count_includes_not_found_witness :
    (1 : Nat) =
      ([⟨⟨"Succeeded", none⟩, ApiResult.apiError 404⟩,
        ⟨⟨"Running", some 10⟩, ApiResult.success⟩] : List GCPod).countP
        (fun b => KubernetesCleaner_shouldDelete 100 50 b.build) :=
  cleaner_count_includes_not_found 100 50
    [⟨⟨"Succeeded", none⟩, ApiResult.apiError 404⟩,
     ⟨⟨"Running", some 10⟩, ApiResult.success⟩] 1 (by rfl)
